import Mathlib

/-!
Verification of the 48ix/workers mailing-list subscription worker
(src/src/invite-request.js).

JavaScript values are shallowly embedded: JS strings are Lean strings,
JS `undefined` is `Option.none`, byte strings are `List Nat` with every
element `< 256`, the responses of the remote CRM API are supplied through
explicit environment records, and the JS exceptions the handler can throw
(property access on `undefined`) are an explicit `Except` error channel.
-/

namespace InviteRequest

/-! ## Byte-level model of encodeURIComponent and btoa

The worker builds its redirect payloads with
`btoa(encodeURIComponent(query))` (src/src/invite-request.js lines 707,
741, 754-758).  Both are modelled at byte level; the decoders are the
standard inverses used to state the round-trip property.
-/

/-- Bytes that `encodeURIComponent` leaves unescaped:
A-Z, a-z, 0-9 and `- _ . ! ~ * ( )` together with the apostrophe (39). -/
def isUnreservedByte (b : Nat) : Prop :=
  (65 ≤ b ∧ b ≤ 90) ∨ (97 ≤ b ∧ b ≤ 122) ∨ (48 ≤ b ∧ b ≤ 57) ∨
    b = 45 ∨ b = 95 ∨ b = 46 ∨ b = 33 ∨ b = 126 ∨ b = 42 ∨ b = 39 ∨ b = 40 ∨ b = 41

instance (b : Nat) : Decidable (isUnreservedByte b) := by
  unfold isUnreservedByte; infer_instance

/-- Upper-case hexadecimal digit, as emitted by `encodeURIComponent`. -/
def hexDigit (d : Nat) : Nat := if d < 10 then 48 + d else 55 + d

/-- Numeric value of a hexadecimal digit byte (inverse of `hexDigit`). -/
def hexVal (c : Nat) : Nat :=
  if 48 ≤ c ∧ c ≤ 57 then c - 48
  else if 65 ≤ c ∧ c ≤ 70 then c - 55
  else if 97 ≤ c ∧ c ≤ 102 then c - 87
  else 0

/-- Byte-level `encodeURIComponent`: unreserved bytes pass through, every
other byte becomes `%XX` (37 is the code of the percent sign). -/
def pctEncode : List Nat → List Nat
  | [] => []
  | b :: rest =>
    if isUnreservedByte b then b :: pctEncode rest
    else 37 :: hexDigit (b / 16) :: hexDigit (b % 16) :: pctEncode rest

/-- Byte-level percent-decoding, the inverse of `pctEncode`. -/
def pctDecode : List Nat → List Nat
  | [] => []
  | b :: rest =>
    if b = 37 then
      match rest with
      | h1 :: h2 :: rest₂ => (hexVal h1 * 16 + hexVal h2) :: pctDecode rest₂
      | _ => []
    else b :: pctDecode rest

theorem hexDigit_roundtrip (b : Nat) (hb : b < 256) :
    hexVal (hexDigit (b / 16)) * 16 + hexVal (hexDigit (b % 16)) = b := by
  unfold hexDigit hexVal
  split_ifs <;> omega

theorem hexDigit_lt (d : Nat) (hd : d < 16) : hexDigit d < 256 := by
  unfold hexDigit; split_ifs <;> omega

theorem pctDecode_cons_ne (b : Nat) (rest : List Nat) (hb : ¬b = 37) :
    pctDecode (b :: rest) = b :: pctDecode rest := by
  cases rest with
  | nil => simp [pctDecode, hb]
  | cons h1 t =>
    cases t with
    | nil => simp [pctDecode, hb]
    | cons h2 rest₂ => simp [pctDecode, hb]

theorem pctDecode_pct (h1 h2 : Nat) (rest : List Nat) :
    pctDecode (37 :: h1 :: h2 :: rest) = (hexVal h1 * 16 + hexVal h2) :: pctDecode rest := by
  rw [pctDecode, if_pos rfl]

theorem pctEncode_cons_unres (b : Nat) (rest : List Nat) (hu : isUnreservedByte b) :
    pctEncode (b :: rest) = b :: pctEncode rest := by
  rw [pctEncode]; simp [hu]

theorem pctEncode_cons_res (b : Nat) (rest : List Nat) (hu : ¬isUnreservedByte b) :
    pctEncode (b :: rest) = 37 :: hexDigit (b / 16) :: hexDigit (b % 16) :: pctEncode rest := by
  rw [pctEncode]; simp [hu]

theorem pctDecode_pctEncode (bs : List Nat) (h : ∀ b ∈ bs, b < 256) :
    pctDecode (pctEncode bs) = bs := by
  induction bs with
  | nil => rfl
  | cons b rest ih =>
    have hb : b < 256 := h b (List.mem_cons_self b rest)
    have hrest : ∀ x ∈ rest, x < 256 := fun x hx => h x (List.mem_cons_of_mem _ hx)
    by_cases hu : isUnreservedByte b
    · have hb37 : ¬b = 37 := by unfold isUnreservedByte at hu; omega
      rw [pctEncode_cons_unres b _ hu, pctDecode_cons_ne b _ hb37, ih hrest]
    · rw [pctEncode_cons_res b _ hu, pctDecode_pct, ih hrest, hexDigit_roundtrip b hb]

theorem pctEncode_bytes_lt (bs : List Nat) (h : ∀ b ∈ bs, b < 256) :
    ∀ x ∈ pctEncode bs, x < 256 := by
  induction bs with
  | nil => simp [pctEncode]
  | cons b rest ih =>
    have hb : b < 256 := h b (List.mem_cons_self b rest)
    have hrest : ∀ x ∈ rest, x < 256 := fun x hx => h x (List.mem_cons_of_mem _ hx)
    intro x hx
    by_cases hu : isUnreservedByte b
    · rw [pctEncode_cons_unres b _ hu] at hx
      simp at hx
      rcases hx with hx | hx
      · omega
      · exact ih hrest x hx
    · rw [pctEncode_cons_res b _ hu] at hx
      simp at hx
      rcases hx with hx | hx | hx | hx
      · omega
      · have := hexDigit_lt (b / 16) (by omega); omega
      · have := hexDigit_lt (b % 16) (by omega); omega
      · exact ih hrest x hx

/-- Base64 alphabet: value `s < 64` to the byte of its digit character. -/
def sixbitChar (s : Nat) : Nat :=
  if s < 26 then 65 + s
  else if s < 52 then 71 + s
  else if s < 62 then s - 4
  else if s = 62 then 43
  else 47

/-- Value of a base64 digit byte (inverse of `sixbitChar`). -/
def sixbitVal (c : Nat) : Nat :=
  if 65 ≤ c ∧ c ≤ 90 then c - 65
  else if 97 ≤ c ∧ c ≤ 122 then c - 71
  else if 48 ≤ c ∧ c ≤ 57 then c + 4
  else if c = 43 then 62
  else 63

theorem sixbit_roundtrip (s : Nat) (h : s < 64) : sixbitVal (sixbitChar s) = s := by
  unfold sixbitChar sixbitVal; split_ifs <;> omega

theorem sixbitChar_ne_pad (s : Nat) : ¬sixbitChar s = 61 := by
  unfold sixbitChar; split_ifs <;> omega

/-- Byte-level `btoa`: standard base64 with `=` (byte 61) padding. -/
def b64encode : List Nat → List Nat
  | [] => []
  | [b1] => [sixbitChar (b1 / 4), sixbitChar (b1 % 4 * 16), 61, 61]
  | [b1, b2] =>
    [sixbitChar (b1 / 4), sixbitChar (b1 % 4 * 16 + b2 / 16), sixbitChar (b2 % 16 * 4), 61]
  | b1 :: b2 :: b3 :: rest =>
    sixbitChar (b1 / 4) :: sixbitChar (b1 % 4 * 16 + b2 / 16) ::
      sixbitChar (b2 % 16 * 4 + b3 / 64) :: sixbitChar (b3 % 64) :: b64encode rest

/-- Byte-level `atob`, the inverse of `b64encode`. -/
def b64decode : List Nat → List Nat
  | [] => []
  | [_] => []
  | [_, _] => []
  | [_, _, _] => []
  | e1 :: e2 :: e3 :: e4 :: rest =>
    if e3 = 61 then [sixbitVal e1 * 4 + sixbitVal e2 / 16]
    else if e4 = 61 then
      [sixbitVal e1 * 4 + sixbitVal e2 / 16, sixbitVal e2 % 16 * 16 + sixbitVal e3 / 4]
    else
      (sixbitVal e1 * 4 + sixbitVal e2 / 16) ::
        (sixbitVal e2 % 16 * 16 + sixbitVal e3 / 4) ::
          (sixbitVal e3 % 4 * 64 + sixbitVal e4) :: b64decode rest

theorem b64decode_quad (e1 e2 e3 e4 : Nat) (rest : List Nat)
    (h3 : ¬e3 = 61) (h4 : ¬e4 = 61) :
    b64decode (e1 :: e2 :: e3 :: e4 :: rest) =
      (sixbitVal e1 * 4 + sixbitVal e2 / 16) ::
        (sixbitVal e2 % 16 * 16 + sixbitVal e3 / 4) ::
          (sixbitVal e3 % 4 * 64 + sixbitVal e4) :: b64decode rest := by
  rw [b64decode]; simp [h3, h4]

theorem b64decode_pad1 (e1 e2 e3 : Nat) (h3 : ¬e3 = 61) :
    b64decode [e1, e2, e3, 61] =
      [sixbitVal e1 * 4 + sixbitVal e2 / 16, sixbitVal e2 % 16 * 16 + sixbitVal e3 / 4] := by
  rw [b64decode]; simp [h3]

theorem b64decode_pad2 (e1 e2 : Nat) :
    b64decode [e1, e2, 61, 61] = [sixbitVal e1 * 4 + sixbitVal e2 / 16] := by
  rw [b64decode]; simp

theorem b64_roundtrip (bs : List Nat) (h : ∀ b ∈ bs, b < 256) :
    b64decode (b64encode bs) = bs := by
  induction bs using b64encode.induct with
  | case1 => simp [b64encode, b64decode]
  | case2 b1 =>
    have hb1 : b1 < 256 := h b1 (by simp)
    simp only [b64encode]
    rw [b64decode_pad2, sixbit_roundtrip (b1 / 4) (by omega),
      sixbit_roundtrip (b1 % 4 * 16) (by omega)]
    congr 1
    omega
  | case3 b1 b2 =>
    have hb1 : b1 < 256 := h b1 (by simp)
    have hb2 : b2 < 256 := h b2 (by simp)
    simp only [b64encode]
    rw [b64decode_pad1 _ _ _ (sixbitChar_ne_pad _),
      sixbit_roundtrip (b1 / 4) (by omega),
      sixbit_roundtrip (b1 % 4 * 16 + b2 / 16) (by omega),
      sixbit_roundtrip (b2 % 16 * 4) (by omega)]
    congr 1
    · omega
    congr 1
    omega
  | case4 b1 b2 b3 rest ih =>
    have hb1 : b1 < 256 := h b1 (by simp)
    have hb2 : b2 < 256 := h b2 (by simp)
    have hb3 : b3 < 256 := h b3 (by simp)
    have hrest : ∀ x ∈ rest, x < 256 := fun x hx => h x (by simp [hx])
    simp only [b64encode]
    rw [b64decode_quad _ _ _ _ _ (sixbitChar_ne_pad _) (sixbitChar_ne_pad _),
      sixbit_roundtrip (b1 / 4) (by omega),
      sixbit_roundtrip (b1 % 4 * 16 + b2 / 16) (by omega),
      sixbit_roundtrip (b2 % 16 * 4 + b3 / 64) (by omega),
      sixbit_roundtrip (b3 % 64) (by omega), ih hrest]
    congr 1
    · omega
    congr 1
    · omega
    congr 1
    omega

/-- UTF-8 byte sequence of a Unicode code point. -/
def utf8Bytes (n : Nat) : List Nat :=
  if n < 128 then [n]
  else if n < 2048 then [192 + n / 64, 128 + n % 64]
  else if n < 65536 then [224 + n / 4096, 128 + n / 64 % 64, 128 + n % 64]
  else [240 + n / 262144, 128 + n / 4096 % 64, 128 + n / 64 % 64, 128 + n % 64]

/-- UTF-8 encoding of a list of characters. -/
def utf8EncodeList : List Char → List Nat
  | [] => []
  | c :: cs => utf8Bytes c.toNat ++ utf8EncodeList cs

/-- UTF-8 encoding of a string. -/
def utf8Encode (s : String) : List Nat := utf8EncodeList s.data

theorem char_toNat_lt (c : Char) : c.toNat < 1114112 := by
  rcases c.valid with h | ⟨h1, h2⟩ <;> simp [Char.toNat] <;> omega

theorem utf8Bytes_lt (n : Nat) (h : n < 1114112) : ∀ b ∈ utf8Bytes n, b < 256 := by
  intro b hb
  unfold utf8Bytes at hb
  split_ifs at hb <;> simp at hb <;> omega

theorem utf8Encode_lt (s : String) : ∀ b ∈ utf8Encode s, b < 256 := by
  unfold utf8Encode
  induction s.data with
  | nil => simp [utf8EncodeList]
  | cons c cs ih =>
    intro b hb
    simp [utf8EncodeList] at hb
    rcases hb with hb | hb
    · exact utf8Bytes_lt c.toNat (char_toNat_lt c) b hb
    · exact ih b hb

/-- Reassemble ASCII bytes into a Lean string (used for the base64 output,
whose bytes are all in the base64 alphabet). -/
def asciiString (bs : List Nat) : String := String.mk (bs.map Char.ofNat)

/-- The payload transformation `btoa(encodeURIComponent(q))` applied by the
worker to its redirect query strings, at byte level. -/
def encPayload (q : String) : List Nat := b64encode (pctEncode (utf8Encode q))

theorem encPayload_roundtrip (q : String) :
    pctDecode (b64decode (encPayload q)) = utf8Encode q := by
  unfold encPayload
  rw [b64_roundtrip _ (pctEncode_bytes_lt _ (utf8Encode_lt q)),
    pctDecode_pctEncode _ (utf8Encode_lt q)]

/-! ## CRM API client (class Client, src/src/invite-request.js lines 189-308)

A fetch `Response` is abstracted by the data the client inspects: its
status, its statusText, the outcome of reading its body as JSON
(`jsonErr`, already projected to the rendered `ErrorCode`/`ErrorMessage`
fields, with absent fields rendered as the string "undefined" the way a
JS template literal would), and the outcome of reading its body as plain
text (`bodyText`, `none` when reading fails). -/
structure RespMeta where
  status : Nat
  statusText : String
  jsonErr : Option (String × String)
  bodyText : Option String
deriving DecidableEq

/-- Model of `response.ok`: status in the inclusive range 200-299. -/
def respOk (s : Nat) : Bool := decide (200 ≤ s) && decide (s ≤ 299)

/-- Model of `Client.clientError` (lines 202-238): `detail` starts as the
statusText, is overwritten by the parsed JSON error when the body parses
as JSON, and only when it is still falsy (the empty string) does the
plain-text body, and then the generic string, get a chance. -/
def clientError (r : RespMeta) : String :=
  let detail := r.statusText
  let detail :=
    match r.jsonErr with
    | some (c, m) => c ++ ": " ++ m
    | none => detail
  let detail :=
    if detail = "" then
      match r.bodyText with
      | some t => t
      | none => detail
    else detail
  if detail = "" then "General Error" else detail

/-- The resolution order `clientError` actually implements, written out as
a decision list (used to state the corrected form of the spec sentence). -/
def clientErrorOrder (r : RespMeta) : String :=
  match r.jsonErr with
  | some (c, m) => c ++ ": " ++ m
  | none =>
    if r.statusText = "" then
      match r.bodyText with
      | some t => if t = "" then "General Error" else t
      | none => "General Error"
    else r.statusText

/-- The `MailingListError` thrown by the client's HTTP methods. -/
inductive MLError where
  | mailingList (message : String)
deriving DecidableEq

/-- Message carried by a `MailingListError`. -/
def MLError.message : MLError → String
  | .mailingList m => m

/-- Model of `Client.put` (lines 288-307): returns the response when it is
ok, otherwise throws `MailingListError(clientError(response))`.  (The
header mutation it also performs is modelled separately below.) -/
def Client.put (r : RespMeta) : Except MLError RespMeta :=
  if respOk r.status then .ok r else .error (.mailingList (clientError r))

/-- Model of `btoa` on a JS string whose char codes are all below 256. -/
def jsBtoa (s : String) : String := asciiString (b64encode (s.data.map Char.toNat))

/-- Header state built once by `Client.constructor` (lines 190-196). -/
def initHeaders (user pass : String) : List (String × String) :=
  [("Authorization", "Basic " ++ jsBtoa (user ++ ":" ++ pass)),
   ("Accept", "application/json")]

/-- Effect of `Client.post` on the shared header object (line 264):
`this.headers.append('Content-Type', 'application/json')`. -/
def Client.postHeaders (h : List (String × String)) : List (String × String) :=
  h ++ [("Content-Type", "application/json")]

/-- Effect of `Client.put` on the shared header object (line 289), the
same `append` as in `post`. -/
def Client.putHeaders (h : List (String × String)) : List (String × String) :=
  h ++ [("Content-Type", "application/json")]

/-- Effect of `Client.get` on the shared header object: `get` only reads
`this.headers` (lines 243-257), so the state is unchanged. -/
def Client.getHeaders (h : List (String × String)) : List (String × String) := h

/-- Repeated `post` calls against the same shared client. -/
def repeatPost : Nat → List (String × String) → List (String × String)
  | 0, h => h
  | n + 1, h => repeatPost n (Client.postHeaders h)

theorem repeatPost_eq (n : Nat) (h : List (String × String)) :
    repeatPost n h = h ++ List.replicate n ("Content-Type", "application/json") := by
  induction n generalizing h with
  | zero => simp [repeatPost]
  | succ n ih =>
    rw [repeatPost, ih, Client.postHeaders]
    simp [List.replicate_succ]

/-! ## Recipient lookup and subscription (lines 456-499) -/

/-- One raw entry of the CRM `listrecipient` listing. -/
structure RecipientRec where
  ID : Nat
  ContactID : Nat
  ListID : Nat
deriving DecidableEq

/-- The body of `getRecipient`'s try block (lines 458-469): filter the
full listing, throw `Error('Contact not found.')` when nothing matches,
otherwise return the first match's ID. -/
def getRecipientTry (data : List RecipientRec) (contactId listId : Nat) : Except String Nat :=
  match data.filter (fun r => r.ContactID == contactId && r.ListID == listId) with
  | [] => .error "Contact not found."
  | r :: _ => .ok r.ID

/-- Model of `getRecipient` (lines 456-473).  The surrounding try/catch
catches both a failing GET and the thrown not-found error, logs, and falls
off the end of the function: the caller receives `undefined` (`none`). -/
def getRecipient (resp : Except MLError (List RecipientRec)) (contactId listId : Nat) :
    Option Nat :=
  match resp with
  | .error _ => none
  | .ok data =>
    match getRecipientTry data contactId listId with
    | .error _ => none
    | .ok i => some i

/-- Remote responses consumed by one `subscribeContact` call: the GET of
the full recipient listing, and the response to the PUT that clears the
`IsUnsubscribed` flag. -/
structure SubscribeEnv where
  recipientsResp : Except MLError (List RecipientRec)
  putResp : RespMeta

/-- Return shape of `subscribeContact`. -/
structure SubscribeResult where
  subscribed : Bool
  error : Option String
deriving DecidableEq

/-- Model of `subscribeContact` (lines 481-499): resolve the recipient id
(possibly `undefined`, which only changes the PUT URL), PUT
`{IsUnsubscribed: false}`, treat `ok || status === 304` as subscribed, and
catch any thrown error into the `error` field. -/
def subscribeContact (se : SubscribeEnv) (contactId listId : Nat) : SubscribeResult :=
  let _recipientId := getRecipient se.recipientsResp contactId listId
  match Client.put se.putResp with
  | .ok r => { subscribed := respOk r.status || r.status == 304, error := none }
  | .error e => { subscribed := false, error := some e.message }

theorem subscribeContact_false_error (se : SubscribeEnv) (contactId listId : Nat)
    (h : (subscribeContact se contactId listId).subscribed = false) :
    (subscribeContact se contactId listId).error.isSome := by
  unfold subscribeContact Client.put at *
  by_cases hok : respOk se.putResp.status = true
  · simp [hok] at h
  · simp [hok] at h ⊢

/-! ## Workflow orchestrator (handleRequest, lines 593-772)

The handler is a function of the parsed query parameters and of an
environment record carrying the responses of every remote call it might
make.  It returns a trace of the remote calls it performed together with
either a `Resp` or the JS exception it threw (a `TypeError` from a
property access on `undefined`, tagged with the offending expression). -/

/-- Cleaned contact-list record assembled by `getAllContactLists`. -/
structure CList where
  id : Nat
  name : String
  subscribers : Nat
deriving DecidableEq

/-- Cleaned template record assembled by `getTemplates`. -/
structure Template where
  id : Nat
  name : String
deriving DecidableEq

/-- Cleaned per-contact list membership assembled by `getContactLists`:
`id` is the list id, `subscribed` inverts the provider's IsUnsub flag. -/
structure Membership where
  id : Nat
  subscribed : Bool
deriving DecidableEq

/-- Return shape of `addContactToList` (lines 408-428). -/
structure AttachResult where
  addedToList : Bool
  contactId : Nat
  error : Option String
deriving DecidableEq

/-- Query parameters extracted by `parseUrl`; a missing parameter is
`none` (JS `undefined`). -/
structure Params where
  action : Option String
  emailAddr : Option String
  listName : Option String
deriving DecidableEq

/-- Remote-call names, in the order the handler can issue them. -/
inductive Call where
  | getAllContactLists
  | getTemplates
  | getContact
  | getContactLists
  | addContact
  | addContactToList
  | getRecipient
  | putRecipient
  | sendEmail
  | notifySlack
deriving DecidableEq

/-- HTTP response produced by the handler. -/
inductive Resp where
  | json (status : Nat) (message : String)
  | redirect (status : Nat) (location : String)
deriving DecidableEq

/-- JS exception escaping the handler, tagged with the expression whose
evaluation threw (a property access on `undefined`). -/
inductive JsErr where
  | typeError (site : String)
deriving DecidableEq

/-- Rendering of a possibly-undefined value inside a JS template literal:
`undefined` prints as the string "undefined". -/
def optStr : Option String → String
  | some s => s
  | none => "undefined"

/-- JS truthiness of a possibly-undefined string: `undefined` and the
empty string are falsy. -/
def strTruthy : Option String → Bool
  | some s => !(s == "")
  | none => false

/-- Environment of one handler run: the results of the resolver calls
and the remote responses behind the mutator calls.  `memberships`,
`attach`, `contactAdded` and `send` are the cleaned return values of
`getContactLists`, `addContactToList`, `addContact` and `sendEmail`,
whose internal error handling already collapses failures into them. -/
structure HEnv where
  contactLists : List CList
  templates : List Template
  contact : Nat × Bool
  memberships : List Membership
  attach : AttachResult
  contactAdded : Bool
  sub : SubscribeEnv
  send : Bool × Option String

/-- Lines 682-771: the two action branches on `(onList, alreadySubscribed)`
followed by the final default JSON response.  `response`/`status` are the
fallback message and status declared at lines 598-599 (only the
confirmation-email branch reassigns them before the final return). -/
def workflowTail (env : HEnv) (p : Params) (trace : List Call)
    (onList alreadySubscribed : Bool) (contactId : Nat)
    (listDetails : Option CList) (response : String) (status : Nat) :
    List Call × Except JsErr Resp :=
  if onList && alreadySubscribed then
    if p.action == some "add" then
      (trace, .ok (.json 409 (optStr p.emailAddr ++
        " is already subscribed to contact list \x27" ++ optStr p.listName ++ "\x27")))
    else if p.action == some "subscribe" then
      let encodedInfo := asciiString (encPayload
        ("emailAddr=" ++ optStr p.emailAddr ++ "&listName=" ++ optStr p.listName))
      (trace, .ok (.redirect 301 ("https://48ix.net/subscribe?" ++ encodedInfo)))
    else
      (trace, .ok (.json status response))
  else if onList && !alreadySubscribed then
    if p.action == some "add" then
      let trace := trace ++ [Call.sendEmail]
      let confirmationSent := env.send.1
      let confirmationError := env.send.2
      if strTruthy confirmationError then
        (trace, .ok (.json 500 (confirmationError.getD "")))
      else if confirmationSent then
        (trace, .ok (.json 200
          ("A confirmation email has been sent to \x27" ++ optStr p.emailAddr ++ "\x27")))
      else
        (trace, .ok (.json status response))
    else if p.action == some "subscribe" then
      match listDetails with
      | none => (trace, .error (.typeError "listDetails.id"))
      | some L =>
        let trace := trace ++ [Call.getRecipient, Call.putRecipient]
        let result := subscribeContact env.sub contactId L.id
        let encodedInfo := asciiString (encPayload
          ("emailAddr=" ++ optStr p.emailAddr ++ "&listName=" ++ optStr p.listName))
        if result.subscribed then
          (trace ++ [Call.notifySlack],
            .ok (.redirect 301 ("https://48ix.net/subscribe?" ++ encodedInfo)))
        else
          match result.error with
          | none =>
            -- notifySlack(emailAddr, listName, error.message) dereferences
            -- `error` unconditionally in this branch
            (trace, .error (.typeError "error.message"))
          | some m =>
            let encodedInfo := asciiString (encPayload
              ("emailAddr=" ++ optStr p.emailAddr ++ "&listName=" ++ optStr p.listName ++
                "&error=" ++ m))
            (trace ++ [Call.notifySlack],
              .ok (.redirect 301 ("https://48ix.net/subscribe/failure?" ++ encodedInfo)))
    else
      (trace, .ok (.json status response))
  else
    (trace, .ok (.json status response))

/-- Model of the mailing-list `handleRequest` (lines 593-772). -/
def handleRequest (env : HEnv) (p : Params) : List Call × Except JsErr Resp :=
  let response := "An error occurred while attempting to add \x27" ++ optStr p.emailAddr ++
    "\x27 to list \x27" ++ optStr p.listName ++ "\x27"
  let status := 500
  -- Lines 604-611: `[action, emailAddr, listName].map(i => { if (typeof i
  -- === 'undefined') return new Response(...); })` — the `return` exits
  -- only the map callback, so the built responses are discarded and the
  -- handler keeps going.
  let _parseCheck := [p.action, p.emailAddr, p.listName].map
    (fun i => if i.isNone then some (Resp.json status "Unable to parse request.") else none)
  let trace := [Call.getAllContactLists]
  let listDetails := (env.contactLists.filter (fun l => l.name == optStr p.listName)).head?
  let trace := trace ++ [Call.getTemplates]
  match (env.templates.filter
      (fun t => t.name == optStr p.listName ++ "-confirmation")).head? with
  | none =>
    (trace, .ok (.json 500 ("Error sending confirmation email to \x27" ++
      optStr p.emailAddr ++ "\x27 for list \x27" ++ optStr p.listName ++ "\x27")))
  | some _emailTemplate =>
    let trace := trace ++ [Call.getContact]
    let contactId := env.contact.1
    if env.contact.2 then
      let trace := trace ++ [Call.getContactLists]
      match env.memberships with
      | [] =>
        -- filter never evaluates its predicate on an empty array, so
        -- `listDetails.id` is first dereferenced in the attach call
        match listDetails with
        | none => (trace, .error (.typeError "listDetails.id"))
        | some _L =>
          let trace := trace ++ [Call.addContactToList]
          workflowTail env p trace env.attach.addedToList false contactId listDetails
            response status
      | m :: ms =>
        -- the filter predicate `listDetails.id === l.id` dereferences
        -- `listDetails` on the first element
        match listDetails with
        | none => (trace, .error (.typeError "listDetails.id"))
        | some L =>
          match ((m :: ms).filter (fun mm => L.id == mm.id)).head? with
          | some contactList =>
            workflowTail env p trace true contactList.subscribed contactId listDetails
              response status
          | none =>
            let trace := trace ++ [Call.addContactToList]
            workflowTail env p trace env.attach.addedToList false contactId listDetails
              response status
    else
      let trace := trace ++ [Call.addContact]
      if env.contactAdded then
        match listDetails with
        | none => (trace, .error (.typeError "listDetails.id"))
        | some _L =>
          let trace := trace ++ [Call.addContactToList]
          match env.attach.error with
          | some errM =>
            (trace, .ok (.json 500 ("An error occurred while adding " ++
              optStr p.emailAddr ++ " to list " ++ optStr p.listName ++ ": " ++ errM)))
          | none =>
            workflowTail env p trace env.attach.addedToList false contactId listDetails
              response status
      else
        workflowTail env p trace false false contactId listDetails response status

/-! ## Concrete fixtures used by the claim witnesses -/

instance {ε α : Type} [DecidableEq ε] [DecidableEq α] : DecidableEq (Except ε α) := fun x y =>
  match x, y with
  | .ok a, .ok b =>
    if h : a = b then .isTrue (by rw [h]) else .isFalse (fun hh => h (Except.ok.inj hh))
  | .error a, .error b =>
    if h : a = b then .isTrue (by rw [h]) else .isFalse (fun hh => h (Except.error.inj hh))
  | .ok _, .error _ => .isFalse (fun hh => Except.noConfusion hh)
  | .error _, .ok _ => .isFalse (fun hh => Except.noConfusion hh)

/-- A 304 response to the subscription PUT.  `response.ok` is false for
304, so `Client.put` throws before `subscribeContact` can test
`response.status === 304`. -/
def respMeta304 : RespMeta := ⟨304, "Not Modified", none, none⟩

/-- Subscribe-call environment in which the recipient listing matches and
the PUT answers 304. -/
def subEnv304 : SubscribeEnv := ⟨.ok [⟨5, 1, 7⟩], respMeta304⟩

/-- A failed response with a non-empty statusText whose body does not
parse as JSON but does read as the text "oops". -/
def respMetaBadReq : RespMeta := ⟨400, "Bad Request", none, some "oops"⟩

/-- Contact list named "pub". -/
def listPub : CList := ⟨7, "pub", 3⟩

/-- Confirmation template for the list named "pub". -/
def tmplPub : Template := ⟨9, "pub-confirmation"⟩

/-- Environment in which the contact exists and is a subscribed member of
the list "pub". -/
def envSubscribed : HEnv :=
  { contactLists := [listPub], templates := [tmplPub], contact := (1, true),
    memberships := [⟨7, true⟩], attach := ⟨false, 0, none⟩, contactAdded := false,
    sub := subEnv304, send := (false, none) }

/-- Environment with a valid list "pub" but no templates at all. -/
def envNoTemplate : HEnv :=
  { contactLists := [listPub], templates := [], contact := (1, true),
    memberships := [⟨7, true⟩], attach := ⟨false, 0, none⟩, contactAdded := false,
    sub := subEnv304, send := (false, none) }

/-- Environment in which no contact list matches, the confirmation
template exists, the contact is unknown and contact creation succeeds. -/
def envNoList : HEnv :=
  { contactLists := [], templates := [tmplPub], contact := (0, false),
    memberships := [], attach := ⟨true, 1, none⟩, contactAdded := true,
    sub := subEnv304, send := (false, none) }

/-- Environment with no remote state at all (every lookup comes up
empty). -/
def envNoRemote : HEnv :=
  { contactLists := [], templates := [], contact := (0, false),
    memberships := [], attach := ⟨false, 0, none⟩, contactAdded := false,
    sub := subEnv304, send := (false, none) }

/-- Request with action add for list "pub". -/
def pAdd : Params := ⟨some "add", some "a@b.example", some "pub"⟩

/-- Request with action subscribe for list "pub". -/
def pSubscribe : Params := ⟨some "subscribe", some "a@b.example", some "pub"⟩

/-- Request with action add for list "pub" and no emailAddr parameter. -/
def pMissingEmail : Params := ⟨some "add", none, some "pub"⟩

/-! ## Claims -/

/-- C2: a 304 response to the subscription PUT is NOT treated as success.
`Client.put` throws `MailingListError` on every non-2xx status, including
304, so the `response.status === 304` check inside `subscribeContact` is
unreachable and the call returns `subscribed = false` with an error —
contrary to the claim (and to the code's own comment at line 490). -/
theorem subscribeContact_304_yields_error :
    Client.put respMeta304 = .error (.mailingList "Not Modified") ∧
    subscribeContact subEnv304 1 7 = { subscribed := false, error := some "Not Modified" } :=
  ⟨rfl, rfl⟩

/-- C3: when no recipient record matches, `getRecipient` raises
`Error('Contact not found.')` inside its own try block, catches it itself,
and returns `undefined` to the caller: the error never reaches the
caller.  Evaluated at a listing whose only entry matches neither the
contact id 1 nor jointly the pair (1, 7). -/
theorem getRecipient_swallows_not_found :
    getRecipientTry [⟨5, 2, 7⟩] 1 7 = .error "Contact not found." ∧
    getRecipient (.ok [⟨5, 2, 7⟩]) 1 7 = none :=
  ⟨rfl, rfl⟩

/-- C4 counterexample: a response with non-empty statusText "Bad Request"
whose body fails JSON parsing and reads as the text "oops" resolves to
the statusText, not to the body text — so "if and only if JSON parsing
fails, detail is the body read as plain text" is false on the code. -/
theorem clientError_statusText_counterexample :
    respMetaBadReq.jsonErr = none ∧ respMetaBadReq.bodyText = some "oops" ∧
    clientError respMetaBadReq = "Bad Request" ∧
    ¬clientError respMetaBadReq = "oops" :=
  ⟨rfl, rfl, rfl, by decide⟩

theorem append_colon_ne_empty (c m : String) : ¬(c ++ ": " ++ m) = "" := by
  intro h
  have h2 := congrArg String.length h
  rw [String.length_append, String.length_append,
    show (": " : String).length = 2 from rfl,
    show ("" : String).length = 0 from rfl] at h2
  omega

/-- C4 amended: the error-detail resolution order is (1) the JSON
`{code}: {message}` rendering when the body parses as JSON; (2) otherwise
the response statusText when it is non-empty; (3) only when the
statusText is empty, the body read as plain text; (4) the generic
"General Error" when that too fails or is empty. -/
theorem clientError_resolution_order (r : RespMeta) :
    clientError r = clientErrorOrder r := by
  unfold clientError clientErrorOrder
  rcases r with ⟨st, stx, j, b⟩
  cases j with
  | some cm =>
    rcases cm with ⟨c, m⟩
    simp [append_colon_ne_empty c m]
  | none =>
    cases b with
    | some t =>
      by_cases hst : stx = "" <;> by_cases ht : t = "" <;> simp [hst, ht]
    | none =>
      by_cases hst : stx = "" <;> simp [hst]

/-- C8 counterexample: `Client.post` appends a Content-Type entry to the
shared header object, so the process-wide header state after one `post`
differs from the state built at construction — the headers are not
read-only. -/
theorem postHeaders_mutates_counterexample :
    ¬Client.postHeaders (initHeaders "user" "pass") = initHeaders "user" "pass" := by
  intro h
  have h2 := congrArg List.length h
  simp [Client.postHeaders, initHeaders] at h2

/-- C8 amended: `get` leaves the shared header state unchanged, but every
`post` (and `put`) call appends another `('Content-Type',
'application/json')` pair to it; after n posts the state is the initial
Authorization/Accept pairs followed by n Content-Type copies, so the
credential entries persist but the state itself is mutated on every
write call. -/
theorem headers_mutation_profile (user pass : String) (n : Nat)
    (h : List (String × String)) :
    repeatPost n (initHeaders user pass) =
      initHeaders user pass ++ List.replicate n ("Content-Type", "application/json") ∧
    Client.putHeaders h = h ++ [("Content-Type", "application/json")] ∧
    Client.getHeaders h = h :=
  ⟨repeatPost_eq n _, rfl, rfl⟩

theorem subscribeContact_shape (se : SubscribeEnv) (c l : Nat) :
    subscribeContact se c l = ⟨true, none⟩ ∨
      ∃ m, subscribeContact se c l = ⟨false, some m⟩ := by
  unfold subscribeContact Client.put
  by_cases hok : respOk se.putResp.status = true
  · left; simp [hok]
  · right; exact ⟨clientError se.putResp, by simp [hok, MLError.message]⟩

theorem workflowTail_no_undefined_error (env : HEnv) (p : Params) (trace : List Call)
    (onList alreadySubscribed : Bool) (contactId : Nat) (listDetails : Option CList)
    (response : String) (status : Nat) :
    ¬(workflowTail env p trace onList alreadySubscribed contactId listDetails
        response status).2 = .error (.typeError "error.message") := by
  unfold workflowTail
  by_cases h1 : (onList && alreadySubscribed) = true
  · rw [if_pos h1]
    by_cases ha : (p.action == some "add") = true
    · rw [if_pos ha]; simp
    · rw [if_neg ha]
      by_cases hs : (p.action == some "subscribe") = true
      · rw [if_pos hs]; simp
      · rw [if_neg hs]; simp
  · rw [if_neg h1]
    by_cases h2 : (onList && !alreadySubscribed) = true
    · rw [if_pos h2]
      by_cases ha : (p.action == some "add") = true
      · rw [if_pos ha]
        dsimp only
        split_ifs <;> simp
      · rw [if_neg ha]
        by_cases hs : (p.action == some "subscribe") = true
        · rw [if_pos hs]
          cases listDetails with
          | none => simp
          | some L =>
            rcases subscribeContact_shape env.sub contactId L.id with hsub | ⟨m, hsub⟩ <;>
              simp [hsub]
        · rw [if_neg hs]; simp
    · rw [if_neg h2]; simp

theorem handleRequest_no_undefined_error (env : HEnv) (p : Params) :
    ¬(handleRequest env p).2 = .error (.typeError "error.message") := by
  simp only [handleRequest]
  repeat' split
  all_goals first
    | apply workflowTail_no_undefined_error
    | simp

/-- C10: whenever `subscribeContact` reports `subscribed = false` its
`error` field is a caught exception (`Client.put` throws on every non-ok
status, so a returned response always means subscribed), hence the
handler's subscribe-failure branch — which reads `error.message`
unconditionally for the Slack notification — never dereferences an
undefined `error`, on any environment and request. -/
theorem subscribe_failure_error_defined (se : SubscribeEnv) (c l : Nat)
    (env : HEnv) (p : Params)
    (h : (subscribeContact se c l).subscribed = false) :
    (subscribeContact se c l).error.isSome ∧
    ¬(handleRequest env p).2 = .error (.typeError "error.message") :=
  ⟨subscribeContact_false_error se c l h, handleRequest_no_undefined_error env p⟩

/-- C10 witness: the hypothesis holds at the 304 environment, where the
PUT fails; the handler part is evaluated at the subscribed fixture. -/
theorem subscribe_failure_error_defined_witness :
    (subscribeContact subEnv304 1 7).error.isSome ∧
    ¬(handleRequest envSubscribed pAdd).2 = .error (.typeError "error.message") :=
  subscribe_failure_error_defined subEnv304 1 7 envSubscribed pAdd rfl

/-- C1: a request missing `emailAddr` is NOT answered with the terminal
parse-error response: the `return` inside the `.map` callback (lines
604-611) does not return from `handleRequest`, so the workflow continues,
performs the contact-list and template CRM lookups, and (here) answers
from the missing-template branch instead — contrary to the claim of a
terminal 500 "Unable to parse request." with no side effects. -/
theorem missing_param_not_parse_error :
    handleRequest envNoRemote pMissingEmail =
      ([Call.getAllContactLists, Call.getTemplates],
        .ok (.json 500
          "Error sending confirmation email to \x27undefined\x27 for list \x27pub\x27")) ∧
    ¬(handleRequest envNoRemote pMissingEmail).2 =
      .ok (.json 500 "Unable to parse request.") :=
  ⟨rfl, by decide⟩

/-- C7: when no template named `{listName}-confirmation` exists, the
handler answers 500 whatever the action is, and the trace stops at the
contact-list and template lookups: no contact lookup, contact creation,
list attachment or email send happens. -/
theorem missing_template_fails_fast (env : HEnv) (p : Params) (L : CList)
    (hL : (env.contactLists.filter (fun l => l.name == optStr p.listName)).head? = some L)
    (hT : (env.templates.filter
      (fun t => t.name == optStr p.listName ++ "-confirmation")).head? = none) :
    handleRequest env p = ([Call.getAllContactLists, Call.getTemplates],
      .ok (.json 500 ("Error sending confirmation email to \x27" ++ optStr p.emailAddr ++
        "\x27 for list \x27" ++ optStr p.listName ++ "\x27"))) := by
  simp [handleRequest, hT]

/-- C7 witness: concrete run against a valid list "pub" with no
templates. -/
theorem missing_template_fails_fast_witness :
    handleRequest envNoTemplate pSubscribe = ([Call.getAllContactLists, Call.getTemplates],
      .ok (.json 500 ("Error sending confirmation email to \x27" ++
        optStr pSubscribe.emailAddr ++ "\x27 for list \x27" ++
        optStr pSubscribe.listName ++ "\x27"))) :=
  missing_template_fails_fast envNoTemplate pSubscribe listPub rfl rfl

/-- C9: when no contact list matches `listName` but the confirmation
template exists, the handler does not produce a "list not found" terminal
response; the undefined `listDetails` propagates (here along the
create-contact path) until its `id` field is dereferenced in the
`addContactToList` call, which throws. -/
theorem missing_list_no_fail_fast (env : HEnv) (p : Params) (T : Template)
    (hL : (env.contactLists.filter (fun l => l.name == optStr p.listName)).head? = none)
    (hT : (env.templates.filter
      (fun t => t.name == optStr p.listName ++ "-confirmation")).head? = some T)
    (hE : env.contact.2 = false)
    (hAdd : env.contactAdded = true) :
    handleRequest env p =
      ([Call.getAllContactLists, Call.getTemplates, Call.getContact, Call.addContact],
        .error (.typeError "listDetails.id")) := by
  simp [handleRequest, hL, hT, hE, hAdd]

/-- C9 witness: concrete run with no matching list, an existing template,
and a successfully created contact. -/
theorem missing_list_no_fail_fast_witness :
    handleRequest envNoList pAdd =
      ([Call.getAllContactLists, Call.getTemplates, Call.getContact, Call.addContact],
        .error (.typeError "listDetails.id")) :=
  missing_list_no_fail_fast envNoList pAdd tmplPub rfl rfl rfl rfl

/-- C6: an already-subscribed member plus `action=add` yields 409 with a
message carrying both the email address and the list name, and the trace
contains only the four read calls — no create, attach,
finalize-subscription or send-email call. -/
theorem already_subscribed_add_conflict (env : HEnv) (p : Params) (L : CList)
    (T : Template) (M : Membership)
    (hL : (env.contactLists.filter (fun l => l.name == optStr p.listName)).head? = some L)
    (hT : (env.templates.filter
      (fun t => t.name == optStr p.listName ++ "-confirmation")).head? = some T)
    (hE : env.contact.2 = true)
    (hM : (env.memberships.filter (fun mm => L.id == mm.id)).head? = some M)
    (hS : M.subscribed = true)
    (hA : p.action = some "add") :
    handleRequest env p =
      ([Call.getAllContactLists, Call.getTemplates, Call.getContact, Call.getContactLists],
        .ok (.json 409 (optStr p.emailAddr ++
          " is already subscribed to contact list \x27" ++ optStr p.listName ++ "\x27"))) := by
  rcases hmem : env.memberships with _ | ⟨m, ms⟩
  · rw [hmem] at hM; simp at hM
  · rw [hmem] at hM
    simp [handleRequest, workflowTail, hL, hT, hE, hmem, hM, hS, hA]

/-- C6 witness: concrete run with an existing, subscribed member of
"pub" and action add. -/
theorem already_subscribed_add_conflict_witness :
    handleRequest envSubscribed pAdd =
      ([Call.getAllContactLists, Call.getTemplates, Call.getContact, Call.getContactLists],
        .ok (.json 409 (optStr pAdd.emailAddr ++
          " is already subscribed to contact list \x27" ++ optStr pAdd.listName ++ "\x27"))) :=
  already_subscribed_add_conflict envSubscribed pAdd listPub tmplPub ⟨7, true⟩
    rfl rfl rfl rfl rfl rfl

/-- C5: an already-subscribed member plus `action=subscribe` yields a 301
redirect whose whole query string is the base64-of-percent-encoded
payload of `emailAddr={email}&listName={listName}`; and for every query
string (with or without an `&error={message}` suffix), base64-decoding
then percent-decoding the payload recovers exactly the original string's
bytes. -/
theorem already_subscribed_subscribe_redirect (env : HEnv) (p : Params) (L : CList)
    (T : Template) (M : Membership)
    (hL : (env.contactLists.filter (fun l => l.name == optStr p.listName)).head? = some L)
    (hT : (env.templates.filter
      (fun t => t.name == optStr p.listName ++ "-confirmation")).head? = some T)
    (hE : env.contact.2 = true)
    (hM : (env.memberships.filter (fun mm => L.id == mm.id)).head? = some M)
    (hS : M.subscribed = true)
    (hA : p.action = some "subscribe") :
    (handleRequest env p).2 = .ok (.redirect 301 ("https://48ix.net/subscribe?" ++
      asciiString (encPayload ("emailAddr=" ++ optStr p.emailAddr ++ "&listName=" ++
        optStr p.listName)))) ∧
    ∀ q : String, pctDecode (b64decode (encPayload q)) = utf8Encode q := by
  refine ⟨?_, fun q => encPayload_roundtrip q⟩
  rcases hmem : env.memberships with _ | ⟨m, ms⟩
  · rw [hmem] at hM; simp at hM
  · rw [hmem] at hM
    simp [handleRequest, workflowTail, hL, hT, hE, hmem, hM, hS, hA]

/-- C5 witness: concrete run with an existing, subscribed member of
"pub" and action subscribe. -/
theorem already_subscribed_subscribe_redirect_witness :
    (handleRequest envSubscribed pSubscribe).2 =
      .ok (.redirect 301 ("https://48ix.net/subscribe?" ++
        asciiString (encPayload ("emailAddr=" ++ optStr pSubscribe.emailAddr ++
          "&listName=" ++ optStr pSubscribe.listName)))) ∧
    ∀ q : String, pctDecode (b64decode (encPayload q)) = utf8Encode q :=
  already_subscribed_subscribe_redirect envSubscribed pSubscribe listPub tmplPub ⟨7, true⟩
    rfl rfl rfl rfl rfl rfl

end InviteRequest
